import Mathlib

/-!
# Verification of the Temple/Belton real-estate deal analyzer

Shallow embedding of the analyzer's logical core:

* `src/analyze.js` — metrics engine, four-stage funnel pipeline and output
  assembler (`calculateGrossYield`, `calculateMonthlyCashFlow`,
  `applyHeuristicFilter`, `selectTopCandidates`, `calculateInvestmentMetrics`,
  `rankAndSelectTopDeals`, `formatDealForOutput`, `createMarketOutput`);
* the RentCast wrapper's pure skeleton (`getRentEstimate` parameter
  defaulting, `enrichWithRentEstimates`), with the network call abstracted as
  an oracle function;
* the orchestrator's validate-and-write step (`validateOutput`, the write in
  `main`), with the filesystem modelled as a map from paths to parsed outputs.

Conventions of the embedding:

* JavaScript numbers are modelled as exact rationals `ℚ`; `Math.round` is
  `jsRound` (half-up, i.e. toward `+∞`), matching JS semantics on rationals.
* Fields that the code tests for truthiness (`price`, `squareFootage`, the
  rent record's `rent`, string fields used with `||`) are `Option ℚ` /
  `Option String`; JS truthiness of a number is "present and nonzero", of a
  string "present and nonempty".
* Where the code reads an optional numeric field arithmetically after the
  pipeline has already guaranteed its presence, the embedding reads it with
  `Option.getD 0`.
* JavaScript's `Array.prototype.sort` is stable (ES2019); it is modelled by
  `List.mergeSort` with the boolean relation induced by the comparator
  `(a, b) => b.key - a.key`, namely `le a b ↔ b.key ≤ a.key`.
* The one unguarded division in the source, `listing.price / annualRent` in
  `calculateInvestmentMetrics`, is embedded with an explicit guard: the
  per-listing metric computation returns `none` when `annualRent = 0`.
-/

namespace TempleDeals

/-- JavaScript `Math.round`: nearest integer, halves toward `+∞`. -/
def jsRound (q : ℚ) : ℤ := ⌊q + 1 / 2⌋

/-- The source's one-decimal rounding idiom `Math.round(x * 10) / 10`. -/
def round1 (q : ℚ) : ℚ := (jsRound (q * 10) : ℚ) / 10

/-- JS truthiness of an optional number: `undefined`/`null`/`0` are falsy. -/
def numTruthy : Option ℚ → Bool
  | none => false
  | some x => decide (x ≠ 0)

/-- JS truthiness of an optional string: `undefined`/`null`/`""` are falsy. -/
def strTruthy : Option String → Bool
  | none => false
  | some s => decide (s ≠ "")

/-- JS `a || b` on optional strings (first operand when truthy, else second). -/
def jsOrStr (a b : Option String) : Option String := if strTruthy a then a else b

/-- JS `a || d` where `d` is a plain numeric default (as in `bedrooms || 3`). -/
def jsOrNum (a : Option ℚ) (d : ℚ) : ℚ := if numTruthy a then a.getD 0 else d

/-- The `analysis` section of the configuration (`config.js`). -/
structure AnalysisConfig where
  minYieldThreshold : ℚ
  heuristicRentPerSqft : ℚ
  maxPropertiesToAnalyze : ℕ
  topDealsCount : ℕ
  propertyTaxRate : ℚ
  vacancyRate : ℚ
  managementFee : ℚ
deriving DecidableEq

/-- The concrete `analysis` values shipped in `config.js`. -/
def defaultAnalysis : AnalysisConfig :=
  { minYieldThreshold := 6.0
    heuristicRentPerSqft := 1.00
    maxPropertiesToAnalyze := 50
    topDealsCount := 10
    propertyTaxRate := 0.024
    vacancyRate := 0.08
    managementFee := 0.10 }

/-- A market definition (`config.js` `markets` entries: identifier and name;
the city list only drives the fetch loop and is not needed here). -/
structure Market where
  id : String
  name : String
deriving DecidableEq

/-- A raw listing record as fetched from the listings API, restricted to the
fields the analyzer reads. Absent JSON fields are `none`. -/
structure Listing where
  id : Option String := none
  listingId : Option String := none
  formattedAddress : Option String := none
  addressLine1 : Option String := none
  city : Option String := none
  state : Option String := none
  zipCode : Option String := none
  price : Option ℚ := none
  bedrooms : Option ℚ := none
  bathrooms : Option ℚ := none
  squareFootage : Option ℚ := none
  yearBuilt : Option ℚ := none
  propertyType : Option String := none
  daysOnMarket : Option ℚ := none
  listingDate : Option String := none
  primaryPhoto : Option String := none
  photos : List String := []
  listingUrl : Option String := none
  marketId : Option String := none
  marketName : Option String := none
deriving DecidableEq

/-- Embedding of `calculateGrossYield` (`src/analyze.js` lines 20-23): returns `0` when the
price is falsy, else `(annualRent / price) * 100`. -/
def calculateGrossYield (annualRent price : ℚ) : ℚ :=
  if price = 0 then 0 else annualRent / price * 100

/-- Embedding of `calculateMonthlyCashFlow` (`src/analyze.js` lines 32-41). -/
def calculateMonthlyCashFlow (cfg : AnalysisConfig) (monthlyRent price : ℚ) : ℚ :=
  let annualTaxes := price * cfg.propertyTaxRate
  let monthlyTaxes := annualTaxes / 12
  let vacancyLoss := monthlyRent * cfg.vacancyRate
  let managementCost := monthlyRent * cfg.managementFee
  let estimatedExpenses := monthlyTaxes + vacancyLoss + managementCost
  monthlyRent - estimatedExpenses

/-- Stage 1, `applyHeuristicFilter` (`src/analyze.js` lines 50-70): drop
listings with falsy `price` or `squareFootage`, then keep those whose
heuristic yield reaches the configured threshold. -/
def applyHeuristicFilter (cfg : AnalysisConfig) (listings : List Listing) : List Listing :=
  listings.filter fun listing =>
    if !numTruthy listing.price || !numTruthy listing.squareFootage then false
    else
      let estimatedMonthlyRent := listing.squareFootage.getD 0 * cfg.heuristicRentPerSqft
      let estimatedAnnualRent := estimatedMonthlyRent * 12
      let heuristicYield := calculateGrossYield estimatedAnnualRent (listing.price.getD 0)
      decide (heuristicYield ≥ cfg.minYieldThreshold)

/-- A listing carrying the `heuristicYield` attached by stage 2. -/
structure CandidateListing extends Listing where
  heuristicYield : ℚ
deriving DecidableEq

/-- The boolean order induced by the descending comparator
`(a, b) => b.key - a.key` fed to a stable sort. -/
def descBy {α : Type} (key : α → ℚ) : α → α → Bool :=
  fun a b => decide (key b ≤ key a)

/-- Stage 2, `selectTopCandidates` (`src/analyze.js` lines 78-103): attach the
heuristic yield, sort by it descending (stable), truncate to the configured
candidate cap. -/
def selectTopCandidates (cfg : AnalysisConfig) (listings : List Listing) : List CandidateListing :=
  let withHeuristicYield := listings.map fun listing =>
    let estimatedMonthlyRent := listing.squareFootage.getD 0 * cfg.heuristicRentPerSqft
    let heuristicYield := calculateGrossYield (estimatedMonthlyRent * 12) (listing.price.getD 0)
    ({ toListing := listing, heuristicYield := heuristicYield } : CandidateListing)
  let sorted := withHeuristicYield.mergeSort (descBy CandidateListing.heuristicYield)
  sorted.take cfg.maxPropertiesToAnalyze

/-- The rent-estimate record returned by the AVM endpoint (`/avm/rent`);
`rent` is optional because a response may lack a numeric `rent` field. -/
structure RentRecord where
  rent : Option ℚ := none
  rentRangeLow : Option ℚ := none
  rentRangeHigh : Option ℚ := none
deriving DecidableEq

/-- The rent-estimate collaborator abstracted over the network: given the
query parameters (address, bedrooms, bathrooms, squareFootage) it returns the
response data, or `none` for a failed lookup (`getRentEstimate` returns
`null` on any error). -/
def RentOracle : Type := String → ℚ → ℚ → ℚ → Option RentRecord

/-- Embedding of `getRentEstimate` (`rentcast.js` lines 78-102) minus the transport:
applies the parameter defaults `bedrooms || 3`, `bathrooms || 2`,
`squareFootage || 1500` and queries the collaborator. -/
def getRentEstimate (remote : RentOracle) (address : String)
    (bedrooms bathrooms squareFootage : Option ℚ) : Option RentRecord :=
  remote address (jsOrNum bedrooms 3) (jsOrNum bathrooms 2) (jsOrNum squareFootage 1500)

/-- The address built in `enrichWithRentEstimates` (`rentcast.js` lines
148-153): `[formattedAddress || addressLine1, city, state, zipCode]`,
truthy-filtered, joined with `", "`. -/
def buildAddress (property : Listing) : String :=
  String.intercalate ", "
    ((([jsOrStr property.formattedAddress property.addressLine1,
        property.city, property.state, property.zipCode].filter strTruthy).map
      fun o => o.getD ""))

/-- A candidate successfully enriched with an actual rent estimate. -/
structure EnrichedListing extends CandidateListing where
  rentEstimate : ℚ
  rentRangeLow : Option ℚ := none
  rentRangeHigh : Option ℚ := none
deriving DecidableEq

/-- Embedding of `enrichWithRentEstimates` (`rentcast.js` lines 139-181): sequentially look
up each property; push it enriched when the response is non-null with a
truthy `rent` (`if (rentData && rentData.rent)`), otherwise drop it. -/
def enrichWithRentEstimates (remote : RentOracle) :
    List CandidateListing → List EnrichedListing
  | [] => []
  | property :: rest =>
    let address := buildAddress property.toListing
    let rentData := getRentEstimate remote address
      property.bedrooms property.bathrooms property.squareFootage
    match rentData with
    | some data =>
      if numTruthy data.rent then
        { toCandidateListing := property
          rentEstimate := data.rent.getD 0
          rentRangeLow := data.rentRangeLow
          rentRangeHigh := data.rentRangeHigh } :: enrichWithRentEstimates remote rest
      else enrichWithRentEstimates remote rest
    | none => enrichWithRentEstimates remote rest

/-- A listing carrying the stage-3 investment metrics. -/
structure MetricsListing extends EnrichedListing where
  grossYield : ℚ
  monthlyCashFlow : ℚ
  annualRent : ℚ
  grm : ℚ
  meetsOnePercentRule : Bool
deriving DecidableEq

/-- The per-listing body of `calculateInvestmentMetrics` (`src/analyze.js`
lines 114-134). The source divides `listing.price / annualRent` with no
guard; the embedding guards that division and returns `none` when
`annualRent = 0` (the division-by-zero branch). -/
def investmentMetricsFor (cfg : AnalysisConfig) (listing : EnrichedListing) :
    Option MetricsListing :=
  let monthlyRent := listing.rentEstimate
  let annualRent := monthlyRent * 12
  let grossYield := calculateGrossYield annualRent (listing.price.getD 0)
  let monthlyCashFlow := calculateMonthlyCashFlow cfg monthlyRent (listing.price.getD 0)
  if annualRent = 0 then none
  else
    some
      { toEnrichedListing := listing
        grossYield := round1 grossYield
        monthlyCashFlow := (jsRound monthlyCashFlow : ℚ)
        annualRent := annualRent
        grm := round1 (listing.price.getD 0 / annualRent)
        meetsOnePercentRule := decide (monthlyRent ≥ listing.price.getD 0 * 0.01) }

/-- Stage 3, `calculateInvestmentMetrics` (`src/analyze.js` lines 111-135):
map `investmentMetricsFor` over the enriched listings, failing if any
listing would divide by zero. -/
def calculateInvestmentMetrics (cfg : AnalysisConfig) :
    List EnrichedListing → Option (List MetricsListing)
  | [] => some []
  | listing :: rest =>
    match investmentMetricsFor cfg listing, calculateInvestmentMetrics cfg rest with
    | some m, some ms => some (m :: ms)
    | _, _ => none

/-- Stage 4, `rankAndSelectTopDeals` (`src/analyze.js` lines 143-158): stable
sort by gross yield descending, truncate to the configured top-deal count. -/
def rankAndSelectTopDeals (cfg : AnalysisConfig) (listings : List MetricsListing) :
    List MetricsListing :=
  let sorted := listings.mergeSort (descBy MetricsListing.grossYield)
  sorted.take cfg.topDealsCount

/-- The output record shape produced by `formatDealForOutput`. -/
structure Deal where
  rank : ℕ
  id : String
  address : Option String
  city : Option String
  state : Option String
  zipCode : Option String
  price : Option ℚ
  bedrooms : Option ℚ
  bathrooms : Option ℚ
  squareFootage : Option ℚ
  yearBuilt : Option ℚ
  propertyType : Option String
  estMonthlyRent : ℚ
  estAnnualRent : ℚ
  grossYield : ℚ
  estMonthlyCashFlow : ℚ
  grm : ℚ
  meetsOnePercentRule : Bool
  rentRangeLow : Option ℚ
  rentRangeHigh : Option ℚ
  daysOnMarket : Option ℚ
  listingDate : Option String
  primaryPhoto : Option String
  listingUrl : Option String
  marketId : Option String
  marketName : Option String
deriving DecidableEq

/-- Embedding of `formatDealForOutput` (`src/analyze.js` lines 167-204): projection of an
enriched listing to the public record, with the `||` fallback chains for
`id`, `address`, `primaryPhoto` and `listingUrl`. -/
def formatDealForOutput (listing : MetricsListing) (rank : ℕ) : Deal :=
  { rank := rank
    id := (jsOrStr listing.id (jsOrStr listing.listingId
      (some ((listing.addressLine1.getD "undefined") ++ "-" ++
        (listing.zipCode.getD "undefined"))))).getD ""
    address := jsOrStr listing.formattedAddress listing.addressLine1
    city := listing.city
    state := listing.state
    zipCode := listing.zipCode
    price := listing.price
    bedrooms := listing.bedrooms
    bathrooms := listing.bathrooms
    squareFootage := listing.squareFootage
    yearBuilt := listing.yearBuilt
    propertyType := listing.propertyType
    estMonthlyRent := listing.rentEstimate
    estAnnualRent := listing.annualRent
    grossYield := listing.grossYield
    estMonthlyCashFlow := listing.monthlyCashFlow
    grm := listing.grm
    meetsOnePercentRule := listing.meetsOnePercentRule
    rentRangeLow := listing.rentRangeLow
    rentRangeHigh := listing.rentRangeHigh
    daysOnMarket := listing.daysOnMarket
    listingDate := listing.listingDate
    primaryPhoto := jsOrStr (jsOrStr listing.primaryPhoto listing.photos.head?) none
    listingUrl := jsOrStr listing.listingUrl none
    marketId := listing.marketId
    marketName := listing.marketName }

/-- The `summary` block of a market output. -/
structure MarketSummary where
  totalDeals : ℕ
  avgGrossYield : ℚ
  avgPrice : ℚ
  avgMonthlyRent : ℚ
  topYield : ℚ
  lowestPrice : ℚ
deriving DecidableEq

/-- The persisted per-market artifact (`createMarketOutput`'s result). -/
structure MarketOutput where
  marketId : String
  marketName : String
  lastUpdated : String
  summary : MarketSummary
  deals : List Deal
deriving DecidableEq

/-- Embedding of `createMarketOutput` (`src/analyze.js` lines 213-245): format each deal
with its 1-based rank, compute the summary statistics, and assemble the
output. `new Date().toISOString()` is passed in as `now`. -/
def createMarketOutput (deals : List MetricsListing) (market : Market) (now : String) :
    MarketOutput :=
  let formattedDeals := deals.mapIdx fun index deal => formatDealForOutput deal (index + 1)
  let avgYield :=
    if deals.length > 0 then
      round1 ((deals.foldl (fun sum d => sum + d.grossYield) 0) / (deals.length : ℚ))
    else 0
  let avgPrice :=
    if deals.length > 0 then
      ((jsRound ((deals.foldl (fun sum d => sum + d.price.getD 0) 0) / (deals.length : ℚ))) : ℚ)
    else 0
  let avgRent :=
    if deals.length > 0 then
      ((jsRound ((deals.foldl (fun sum d => sum + d.rentEstimate) 0) / (deals.length : ℚ))) : ℚ)
    else 0
  { marketId := market.id
    marketName := market.name
    lastUpdated := now
    summary :=
      { totalDeals := formattedDeals.length
        avgGrossYield := avgYield
        avgPrice := avgPrice
        avgMonthlyRent := avgRent
        topYield := match formattedDeals.head? with
          | some d => d.grossYield
          | none => 0
        lowestPrice := match formattedDeals.map fun d => d.price.getD 0 with
          | [] => 0
          | p :: ps => ps.foldl min p }
    deals := formattedDeals }

/-- Embedding of `validateOutput` (`index.js` lines 97-108): if the new data has no deals
and the existing file (when present) has a non-empty `deals` array, keep the
existing data; otherwise use the new data. -/
def validateOutput (data : MarketOutput) (existing : Option MarketOutput) : MarketOutput :=
  if data.deals.length = 0 then
    match existing with
    | some prior => if prior.deals.length > 0 then prior else data
    | none => data
  else data

/-- The persisted filesystem, as a map from output paths to parsed files. -/
def FileStore : Type := String → Option MarketOutput

/-- Embedding of `writeOutput` (`index.js` lines 82-92): overwrite the file at `path`. -/
def writeOutput (store : FileStore) (path : String) (data : MarketOutput) : FileStore :=
  fun q => if q = path then some data else store q

/-- The per-market persist step of `main` (`index.js` lines 132-135):
validate the computed output against the existing file, then write. -/
def validateAndWrite (store : FileStore) (path : String) (output : MarketOutput) : FileStore :=
  writeOutput store path (validateOutput output (store path))

/-- Embedding of `processMarket` (`index.js` lines 31-77) minus I/O: the staged pipeline
with its early returns on empty intermediate results; `none` only when the
guarded metrics stage would divide by zero (the JS source would instead
produce non-finite numbers there). -/
def processMarket (cfg : AnalysisConfig) (remote : RentOracle)
    (rawListings : List Listing) (market : Market) (now : String) :
    Option MarketOutput :=
  if rawListings.length = 0 then some (createMarketOutput [] market now)
  else
    let filteredListings := applyHeuristicFilter cfg rawListings
    if filteredListings.length = 0 then some (createMarketOutput [] market now)
    else
      let topCandidates := selectTopCandidates cfg filteredListings
      let withRentEstimates := enrichWithRentEstimates remote topCandidates
      if withRentEstimates.length = 0 then some (createMarketOutput [] market now)
      else
        match calculateInvestmentMetrics cfg withRentEstimates with
        | some withMetrics =>
          some (createMarketOutput (rankAndSelectTopDeals cfg withMetrics) market now)
        | none => none

/-- Listing A of the spec's end-to-end example: price 200000, 1600 sqft. -/
def listingA : Listing :=
  { formattedAddress := some "101 Oak St, Temple, TX 76501"
    addressLine1 := some "101 Oak St"
    city := some "Temple"
    state := some "TX"
    zipCode := some "76501"
    price := some 200000
    bedrooms := some 3
    bathrooms := some 2
    squareFootage := some 1600 }

/-- Listing B of the spec's end-to-end example: price 300000, 1200 sqft. -/
def listingB : Listing :=
  { formattedAddress := some "202 Elm St, Belton, TX 76513"
    addressLine1 := some "202 Elm St"
    city := some "Belton"
    state := some "TX"
    zipCode := some "76513"
    price := some 300000
    bedrooms := some 3
    bathrooms := some 2
    squareFootage := some 1200 }

/-- Rent-estimate collaborator for the end-to-end example: 1800/mo for
listing A, 1500/mo for listing B. -/
def sampleRemote : RentOracle := fun address _ _ _ =>
  if address = buildAddress listingA then
    some { rent := some 1800, rentRangeLow := some 1700, rentRangeHigh := some 1900 }
  else if address = buildAddress listingB then
    some { rent := some 1500, rentRangeLow := some 1400, rentRangeHigh := some 1600 }
  else none

/-- The first market of `config.js`. -/
def sampleMarket : Market := { id := "temple-belton", name := "Temple / Belton" }

/-- A candidate used in concrete instances. -/
def cand0 : CandidateListing := { toListing := listingA, heuristicYield := 9.6 }

/-- A collaborator whose responses carry a `rent` field that is present but
zero (hence falsy in JS). -/
def zeroRentRemote : RentOracle := fun _ _ _ _ =>
  some { rent := some 0, rentRangeLow := some 0, rentRangeHigh := some 0 }

/-- An enriched listing used in concrete instances. -/
def enrichedSample : EnrichedListing :=
  { toCandidateListing := cand0
    rentEstimate := 1800
    rentRangeLow := some 1700
    rentRangeHigh := some 1900 }

/-- The metrics record computed for `enrichedSample` by stage 3. -/
def metricsSample : MetricsListing :=
  { toEnrichedListing := enrichedSample
    grossYield := 10.8
    monthlyCashFlow := 1076
    annualRent := 21600
    grm := 9.3
    meetsOnePercentRule := false }

/-- A formatted deal used in concrete instances. -/
def sampleDeal : Deal :=
  { rank := 1
    id := "101 Oak St-76501"
    address := some "101 Oak St, Temple, TX 76501"
    city := some "Temple"
    state := some "TX"
    zipCode := some "76501"
    price := some 200000
    bedrooms := some 3
    bathrooms := some 2
    squareFootage := some 1600
    yearBuilt := none
    propertyType := none
    estMonthlyRent := 1800
    estAnnualRent := 21600
    grossYield := 10.8
    estMonthlyCashFlow := 1076
    grm := 9.3
    meetsOnePercentRule := false
    rentRangeLow := some 1700
    rentRangeHigh := some 1900
    daysOnMarket := none
    listingDate := none
    primaryPhoto := none
    listingUrl := none
    marketId := some "temple-belton"
    marketName := some "Temple / Belton" }

/-- A previously persisted market output holding five deals. -/
def priorOutput : MarketOutput :=
  { marketId := "temple-belton"
    marketName := "Temple / Belton"
    lastUpdated := "2024-12-01T00:00:00.000Z"
    summary :=
      { totalDeals := 5
        avgGrossYield := 10.8
        avgPrice := 200000
        avgMonthlyRent := 1800
        topYield := 10.8
        lowestPrice := 200000 }
    deals := List.replicate 5 sampleDeal }

/-- A freshly computed market output with zero deals. -/
def emptyNewOutput : MarketOutput :=
  createMarketOutput [] sampleMarket "2025-01-01T00:00:00.000Z"

/-- A filesystem holding the previously persisted file for the market. -/
def sampleStore : FileStore := fun q =>
  if q = "data/temple-belton-deals.json" then some priorOutput else none

/-! ## Helper lemmas about the descending stable sort -/

theorem descBy_trans {α : Type} (key : α → ℚ) (a b c : α)
    (h1 : descBy key a b = true) (h2 : descBy key b c = true) : descBy key a c = true := by
  simp only [descBy, decide_eq_true_eq] at h1 h2 ⊢
  exact le_trans h2 h1

theorem descBy_total {α : Type} (key : α → ℚ) (a b : α) :
    (descBy key a b || descBy key b a) = true := by
  simp only [descBy, Bool.or_eq_true, decide_eq_true_eq]
  exact le_total (key b) (key a)

/-- Truncating the stable descending sort leaves a list whose adjacent
elements are in weakly decreasing key order. -/
theorem chain_take_mergeSort {α : Type} (key : α → ℚ) (l : List α) (n : ℕ) :
    List.Chain' (fun a b => key b ≤ key a) ((l.mergeSort (descBy key)).take n) := by
  have hp : ((l.mergeSort (descBy key)).take n).Pairwise (fun a b => descBy key a b = true) :=
    List.Pairwise.sublist (List.take_sublist n _)
      (List.sorted_mergeSort (descBy_trans key) (descBy_total key) l)
  exact (hp.imp fun h => by simpa [descBy, decide_eq_true_eq] using h).chain'

/-- The rank fields of `deals.mapIdx fun i d => formatDealForOutput d (i + k + 1)`
are `k+1, k+2, …` in order. -/
theorem map_rank_mapIdx (deals : List MetricsListing) :
    ∀ k : ℕ,
      ((deals.mapIdx fun index deal => formatDealForOutput deal (index + k + 1)).map
        Deal.rank) = List.range' (k + 1) deals.length := by
  induction deals with
  | nil => intro k; simp
  | cons d rest ih =>
    intro k
    rw [List.mapIdx_cons]
    have hfun : (fun i deal => formatDealForOutput deal (i + 1 + k + 1)) =
        fun i deal => formatDealForOutput deal (i + (k + 1) + 1) := by
      funext i deal
      congr 1
      omega
    simp only [List.map_cons, hfun, ih (k + 1)]
    have hrank : (formatDealForOutput d (0 + k + 1)).rank = k + 1 := by
      show 0 + k + 1 = k + 1
      omega
    rw [List.length_cons, hrank]
    rfl

/-! ## Claim theorems -/

/-- C4: for price > 0 and annualRent ≥ 0, `calculateGrossYield` is exactly
`(annualRent / price) * 100`; and for every annual rent, a zero price
yields 0. -/
theorem calculateGrossYield_spec (annualRent price : ℚ)
    (hp : 0 < price) (_hr : 0 ≤ annualRent) :
    calculateGrossYield annualRent price = annualRent / price * 100 ∧
    ∀ r : ℚ, calculateGrossYield r 0 = 0 := by
  constructor
  · simp [calculateGrossYield, hp.ne']
  · intro r
    simp [calculateGrossYield]

/-- Witness for C4 at annualRent 21600, price 200000. -/
theorem calculateGrossYield_spec_witness :
    (0 : ℚ) < 200000 ∧ (0 : ℚ) ≤ 21600 ∧
    (calculateGrossYield 21600 200000 = 21600 / 200000 * 100 ∧
      ∀ r : ℚ, calculateGrossYield r 0 = 0) :=
  ⟨by norm_num, by norm_num,
    calculateGrossYield_spec 21600 200000 (by norm_num) (by norm_num)⟩

/-- C6: `createMarketOutput` on an empty deals list returns a summary whose
`totalDeals` is 0, all numeric summary fields 0, and an empty deals list. -/
theorem createMarketOutput_empty (market : Market) (now : String) :
    (createMarketOutput [] market now).summary.totalDeals = 0 ∧
    (createMarketOutput [] market now).summary.avgGrossYield = 0 ∧
    (createMarketOutput [] market now).summary.avgPrice = 0 ∧
    (createMarketOutput [] market now).summary.avgMonthlyRent = 0 ∧
    (createMarketOutput [] market now).summary.topYield = 0 ∧
    (createMarketOutput [] market now).summary.lowestPrice = 0 ∧
    (createMarketOutput [] market now).deals = [] :=
  ⟨rfl, rfl, rfl, rfl, rfl, rfl, rfl⟩

/-- C3: `selectTopCandidates` returns at most the configured candidate cap,
with adjacent heuristic yields weakly decreasing. -/
theorem selectTopCandidates_spec (cfg : AnalysisConfig) (listings : List Listing) :
    (selectTopCandidates cfg listings).length ≤ cfg.maxPropertiesToAnalyze ∧
    List.Chain' (fun a b => b.heuristicYield ≤ a.heuristicYield)
      (selectTopCandidates cfg listings) :=
  ⟨List.length_take_le _ _, chain_take_mergeSort CandidateListing.heuristicYield _ _⟩

/-- C1: `rankAndSelectTopDeals` returns at most the configured top-deal
count, with adjacent gross yields weakly decreasing; and the rank fields of
`createMarketOutput`'s deal sequence are exactly `1..N` in order. -/
theorem rankAndSelectTopDeals_spec (cfg : AnalysisConfig)
    (listings deals : List MetricsListing) (market : Market) (now : String) :
    (rankAndSelectTopDeals cfg listings).length ≤ cfg.topDealsCount ∧
    List.Chain' (fun a b => b.grossYield ≤ a.grossYield)
      (rankAndSelectTopDeals cfg listings) ∧
    ((createMarketOutput deals market now).deals.map Deal.rank) =
      List.range' 1 deals.length := by
  refine ⟨List.length_take_le _ _,
    chain_take_mergeSort MetricsListing.grossYield _ _, ?_⟩
  show ((deals.mapIdx fun index deal => formatDealForOutput deal (index + 1)).map
    Deal.rank) = List.range' 1 deals.length
  have h := map_rank_mapIdx deals 0
  simpa using h

/-- C2: with a positive configured threshold, `applyHeuristicFilter` keeps a
listing iff it is in the input, has a price `p` and a square footage `s`, and
`s * heuristicRentPerSqft * 12 / p * 100 ≥ minYieldThreshold`; every listing
missing price or square footage is excluded. -/
theorem applyHeuristicFilter_spec (cfg : AnalysisConfig)
    (ht : 0 < cfg.minYieldThreshold) (listings : List Listing) (l : Listing) :
    (l ∈ applyHeuristicFilter cfg listings ↔
      l ∈ listings ∧ ∃ p s : ℚ, l.price = some p ∧ l.squareFootage = some s ∧
        cfg.minYieldThreshold ≤ s * cfg.heuristicRentPerSqft * 12 / p * 100) ∧
    ((l.price = none ∨ l.squareFootage = none) → l ∉ applyHeuristicFilter cfg listings) := by
  have key : (if !numTruthy l.price || !numTruthy l.squareFootage then false
      else
        decide (calculateGrossYield (l.squareFootage.getD 0 * cfg.heuristicRentPerSqft * 12)
          (l.price.getD 0) ≥ cfg.minYieldThreshold)) = true ↔
      ∃ p s : ℚ, l.price = some p ∧ l.squareFootage = some s ∧
        cfg.minYieldThreshold ≤ s * cfg.heuristicRentPerSqft * 12 / p * 100 := by
    rcases hp : l.price with _ | p
    · simp [numTruthy, hp]
    · rcases hs : l.squareFootage with _ | s
      · simp [numTruthy, hp, hs]
      · simp only [hp, hs, Option.getD_some, Option.some.injEq]
        by_cases hp0 : p = 0
        · subst hp0
          constructor
          · intro h
            simp [numTruthy] at h
          · rintro ⟨p', s', hp', hs', hle⟩
            subst hp'
            rw [div_zero, zero_mul] at hle
            exact absurd hle (not_le.mpr ht)
        · by_cases hs0 : s = 0
          · subst hs0
            constructor
            · intro h
              simp [numTruthy, hp0] at h
            · rintro ⟨p', s', hp', hs', hle⟩
              subst hp'
              subst hs'
              rw [zero_mul, zero_mul, zero_div, zero_mul] at hle
              exact absurd hle (not_le.mpr ht)
          · have hcond : (!numTruthy (some p) || !numTruthy (some s)) = false := by
              simp [numTruthy, hp0, hs0]
            simp only [hcond, Bool.false_eq_true, if_false, decide_eq_true_eq, ge_iff_le,
              calculateGrossYield, if_neg hp0]
            constructor
            · intro h
              exact ⟨p, s, rfl, rfl, h⟩
            · rintro ⟨p', s', hp', hs', hle⟩
              subst hp'
              subst hs'
              exact hle
  constructor
  · rw [applyHeuristicFilter, List.mem_filter]
    exact and_congr_right fun _ => key
  · intro hmiss hmem
    rw [applyHeuristicFilter, List.mem_filter] at hmem
    have := key.mp hmem.2
    rcases this with ⟨p, s, hp, hs, -⟩
    rcases hmiss with h | h
    · rw [h] at hp; exact Option.noConfusion hp
    · rw [h] at hs; exact Option.noConfusion hs

/-- Witness for C2 at the shipped configuration and listing A. -/
theorem applyHeuristicFilter_spec_witness :
    0 < defaultAnalysis.minYieldThreshold ∧
    ((listingA ∈ applyHeuristicFilter defaultAnalysis [listingA] ↔
      listingA ∈ [listingA] ∧ ∃ p s : ℚ, listingA.price = some p ∧
        listingA.squareFootage = some s ∧
        defaultAnalysis.minYieldThreshold ≤
          s * defaultAnalysis.heuristicRentPerSqft * 12 / p * 100) ∧
    ((listingA.price = none ∨ listingA.squareFootage = none) →
      listingA ∉ applyHeuristicFilter defaultAnalysis [listingA])) :=
  ⟨by norm_num [defaultAnalysis],
    applyHeuristicFilter_spec defaultAnalysis (by norm_num [defaultAnalysis]) [listingA] listingA⟩

/-- C9: the ranking sort is stable on ties. For any yield value `v`, the
`v`-yield listings of the sorted sequence are exactly the `v`-yield listings
of the input in input order, and after truncation the surviving `v`-yield
listings are still a subsequence of the input's `v`-yield listings (so ties
keep their first-encountered relative order, with no secondary key). -/
theorem rankAndSelectTopDeals_stable (cfg : AnalysisConfig)
    (listings : List MetricsListing) (v : ℚ) :
    ((listings.mergeSort (descBy MetricsListing.grossYield)).filter
        fun x => decide (x.grossYield = v)) =
      (listings.filter fun x => decide (x.grossYield = v)) ∧
    ((rankAndSelectTopDeals cfg listings).filter
        fun x => decide (x.grossYield = v)).Sublist
      (listings.filter fun x => decide (x.grossYield = v)) := by
  have hmemp : ∀ x ∈ listings.filter fun y => decide (y.grossYield = v),
      decide (x.grossYield = v) = true :=
    fun _ hx => (List.mem_filter.mp hx).2
  have hpw : (listings.filter fun x => decide (x.grossYield = v)).Pairwise
      fun a b => descBy MetricsListing.grossYield a b = true := by
    apply List.pairwise_of_forall_mem_list
    intro a ha b hb
    have hav : a.grossYield = v := of_decide_eq_true (List.mem_filter.mp ha).2
    have hbv : b.grossYield = v := of_decide_eq_true (List.mem_filter.mp hb).2
    simp [descBy, hav, hbv]
  have hsub : (listings.filter fun x => decide (x.grossYield = v)).Sublist
      (listings.mergeSort (descBy MetricsListing.grossYield)) :=
    List.sublist_mergeSort (descBy_trans MetricsListing.grossYield)
      (descBy_total MetricsListing.grossYield) hpw (List.filter_sublist listings)
  have hfs : ((listings.filter fun x => decide (x.grossYield = v)).filter
      fun x => decide (x.grossYield = v)) =
      listings.filter fun x => decide (x.grossYield = v) :=
    List.filter_eq_self.mpr hmemp
  have hsub2 : (listings.filter fun x => decide (x.grossYield = v)).Sublist
      ((listings.mergeSort (descBy MetricsListing.grossYield)).filter
        fun x => decide (x.grossYield = v)) := by
    have h := List.Sublist.filter (fun x => decide (x.grossYield = v)) hsub
    rwa [hfs] at h
  have hperm : ((listings.mergeSort (descBy MetricsListing.grossYield)).filter
      fun x => decide (x.grossYield = v)).Perm
      (listings.filter fun x => decide (x.grossYield = v)) :=
    List.Perm.filter _ (List.mergeSort_perm listings _)
  have heq : ((listings.mergeSort (descBy MetricsListing.grossYield)).filter
      fun x => decide (x.grossYield = v)) =
      listings.filter fun x => decide (x.grossYield = v) :=
    (hsub2.eq_of_length hperm.length_eq.symm).symm
  refine ⟨heq, ?_⟩
  have hrs : rankAndSelectTopDeals cfg listings =
      (listings.mergeSort (descBy MetricsListing.grossYield)).take cfg.topDealsCount := rfl
  rw [hrs]
  have h2 := List.Sublist.filter (fun x => decide (x.grossYield = v))
    (List.take_sublist cfg.topDealsCount
      (listings.mergeSort (descBy MetricsListing.grossYield)))
  rwa [heq] at h2

/-- C7: the orchestrator's validate-and-write step does not overwrite a
previously persisted non-empty file with a freshly computed empty result. -/
theorem validateAndWrite_keeps_prior (store : FileStore) (path : String)
    (output prior : MarketOutput) (hnew : output.deals = [])
    (hstore : store path = some prior) (hprior : 0 < prior.deals.length) :
    validateAndWrite store path output path = some prior := by
  unfold validateAndWrite writeOutput validateOutput
  rw [hstore, hnew]
  simp [hprior]

/-- Witness for C7: a store holding a five-deal file for the market, and a
newly computed empty output. -/
theorem validateAndWrite_keeps_prior_witness :
    emptyNewOutput.deals = [] ∧
    sampleStore "data/temple-belton-deals.json" = some priorOutput ∧
    0 < priorOutput.deals.length ∧
    validateAndWrite sampleStore "data/temple-belton-deals.json" emptyNewOutput
      "data/temple-belton-deals.json" = some priorOutput := by
  have h1 : emptyNewOutput.deals = [] := rfl
  have h2 : sampleStore "data/temple-belton-deals.json" = some priorOutput := by
    simp [sampleStore]
  have h3 : 0 < priorOutput.deals.length := by
    simp [priorOutput]
  exact ⟨h1, h2, h3, validateAndWrite_keeps_prior _ _ _ _ h1 h2 h3⟩

/-- C10: every output of the enrichment step has a nonzero `rentEstimate`,
and on such lists the guarded embedding of `calculateInvestmentMetrics`
never takes its division-by-zero branch (it returns `some`). -/
theorem investmentMetrics_no_div_zero (cfg : AnalysisConfig) :
    (∀ (remote : RentOracle) (props : List CandidateListing),
      ∀ e ∈ enrichWithRentEstimates remote props, e.rentEstimate ≠ 0) ∧
    (∀ listings : List EnrichedListing,
      (∀ e ∈ listings, e.rentEstimate ≠ 0) →
      (calculateInvestmentMetrics cfg listings).isSome = true) := by
  constructor
  · intro remote props
    induction props with
    | nil =>
      intro e he
      simp [enrichWithRentEstimates] at he
    | cons p rest ih =>
      intro e he
      rw [enrichWithRentEstimates] at he
      split at he
      · next data hsome =>
          split at he
          · next hrent =>
              rcases List.mem_cons.mp he with heq | hmem
              · subst heq
                rcases hd : data.rent with _ | x
                · rw [hd] at hrent
                  simp [numTruthy] at hrent
                · rw [hd] at hrent
                  have hx : x ≠ 0 := by
                    simpa [numTruthy] using hrent
                  simpa [hd] using hx
              · exact ih e hmem
          · next => exact ih e he
      · next => exact ih e he
  · intro listings
    induction listings with
    | nil => intro _; rfl
    | cons l rest ih =>
      intro h
      have hl : l.rentEstimate ≠ 0 := h l (List.mem_cons_self l rest)
      have hrest := ih fun e he => h e (List.mem_cons_of_mem l he)
      have h12 : l.rentEstimate * 12 ≠ 0 := mul_ne_zero hl (by norm_num)
      rw [calculateInvestmentMetrics]
      rcases hms : calculateInvestmentMetrics cfg rest with _ | ms
      · rw [hms] at hrest
        simp at hrest
      · simp only [investmentMetricsFor, if_neg h12, hms]
        rfl

/-- Witness for C10 at the shipped configuration and a concrete enriched
listing with rent 1800. -/
theorem investmentMetrics_no_div_zero_witness :
    (∀ e ∈ [enrichedSample], e.rentEstimate ≠ 0) ∧
    (calculateInvestmentMetrics defaultAnalysis [enrichedSample]).isSome = true := by
  have h : ∀ e ∈ [enrichedSample], e.rentEstimate ≠ 0 := by
    intro e he
    rcases List.mem_singleton.mp he with rfl
    norm_num [enrichedSample]
  exact ⟨h, (investmentMetrics_no_div_zero defaultAnalysis).2 [enrichedSample] h⟩

/-- C8 counterexample: a lookup that returns a record whose numeric `rent`
field is present but `0`. The claim as stated would include the candidate;
`enrichWithRentEstimates` excludes it (JS truthiness of `rentData.rent`). -/
theorem enrichWithRentEstimates_present_zero_rent_dropped :
    (∃ r : RentRecord,
      getRentEstimate zeroRentRemote (buildAddress cand0.toListing)
        cand0.bedrooms cand0.bathrooms cand0.squareFootage = some r ∧
      r.rent = some 0) ∧
    enrichWithRentEstimates zeroRentRemote [cand0] = [] := by
  refine ⟨⟨{ rent := some 0, rentRangeLow := some 0, rentRangeHigh := some 0 }, rfl, rfl⟩, ?_⟩
  have hcond : numTruthy (some (0 : ℚ)) = false := by
    rw [numTruthy]
    exact decide_eq_false (by simp)
  have hlook : getRentEstimate zeroRentRemote (buildAddress cand0.toListing)
      cand0.bedrooms cand0.bathrooms cand0.squareFootage =
      some { rent := some 0, rentRangeLow := some 0, rentRangeHigh := some 0 } := rfl
  rw [enrichWithRentEstimates, hlook]
  dsimp only
  rw [hcond]
  simp [enrichWithRentEstimates]

/-- C9 (amended C8): a record is in the output of `enrichWithRentEstimates`
iff some input candidate's rent-estimate lookup returned a record with a
*truthy* (present and nonzero) numeric `rent`, and the output record carries
that candidate together with the returned `rent`, `rentRangeLow` and
`rentRangeHigh`. -/
theorem enrichWithRentEstimates_mem (remote : RentOracle)
    (props : List CandidateListing) (e : EnrichedListing) :
    e ∈ enrichWithRentEstimates remote props ↔
      ∃ p ∈ props, ∃ r : RentRecord,
        getRentEstimate remote (buildAddress p.toListing)
          p.bedrooms p.bathrooms p.squareFootage = some r ∧
        r.rent = some e.rentEstimate ∧ e.rentEstimate ≠ 0 ∧
        e.toCandidateListing = p ∧
        e.rentRangeLow = r.rentRangeLow ∧ e.rentRangeHigh = r.rentRangeHigh := by
  induction props with
  | nil => simp [enrichWithRentEstimates]
  | cons p rest ih =>
    rw [enrichWithRentEstimates]
    constructor
    · intro he
      split at he
      · next data hsome =>
          split at he
          · next hrent =>
              rcases List.mem_cons.mp he with heq | hmem
              · refine ⟨p, List.mem_cons_self p rest, data, hsome, ?_⟩
                rcases hd : data.rent with _ | x
                · rw [hd] at hrent
                  simp [numTruthy] at hrent
                · rw [hd] at hrent
                  have hx : x ≠ 0 := by simpa [numTruthy] using hrent
                  subst heq
                  refine ⟨by simp [hd], by simpa [hd] using hx, rfl, rfl, rfl⟩
              · rcases ih.mp hmem with ⟨q, hq, r, hr⟩
                exact ⟨q, List.mem_cons_of_mem p hq, r, hr⟩
          · next =>
              rcases ih.mp he with ⟨q, hq, r, hr⟩
              exact ⟨q, List.mem_cons_of_mem p hq, r, hr⟩
      · next =>
          rcases ih.mp he with ⟨q, hq, r, hr⟩
          exact ⟨q, List.mem_cons_of_mem p hq, r, hr⟩
    · rintro ⟨q, hq, r, hlook, hrent, hne, hcand, hlow, hhigh⟩
      rcases List.mem_cons.mp hq with heq | hq'
      · rw [heq] at hlook hcand
        rw [hlook]
        have htruthy : numTruthy r.rent = true := by
          rw [hrent]
          simp [numTruthy, hne]
        show e ∈ (if numTruthy r.rent then _ :: enrichWithRentEstimates remote rest
          else enrichWithRentEstimates remote rest)
        rw [htruthy]
        simp only [if_true]
        apply List.mem_cons.mpr
        left
        rcases e with ⟨ec, er, elo, ehi⟩
        have hcq : ec = p := hcand
        have hlo : elo = r.rentRangeLow := hlow
        have hhi : ehi = r.rentRangeHigh := hhigh
        have hre : r.rent = some er := hrent
        subst hcq
        subst hlo
        subst hhi
        have her : r.rent.getD 0 = er := by
          rw [hre]
          rfl
        rw [her]
      · have hmem : e ∈ enrichWithRentEstimates remote rest :=
          ih.mpr ⟨q, hq', r, hlook, hrent, hne, hcand, hlow, hhigh⟩
        split
        · next data hsome =>
            split
            · next => exact List.mem_cons_of_mem _ hmem
            · next => exact hmem
        · next => exact hmem

/-- C5: the spec's end-to-end example. Listing B (price 300000, 1200 sqft,
heuristic yield 4.8) is excluded by the heuristic filter while listing A
(price 200000, 1600 sqft, heuristic yield 9.6) is kept; with an actual rent
estimate of 1800/mo, A's metrics are rounded gross yield 10.8, GRM 9.3 and
`meetsOnePercentRule = false`; the final market output holds exactly one
deal, with rank 1 and gross yield 10.8. -/
theorem end_to_end_example :
    applyHeuristicFilter defaultAnalysis [listingA, listingB] = [listingA] ∧
    calculateGrossYield (1600 * defaultAnalysis.heuristicRentPerSqft * 12) 200000 = 9.6 ∧
    calculateGrossYield (1200 * defaultAnalysis.heuristicRentPerSqft * 12) 300000 = 4.8 ∧
    ((calculateInvestmentMetrics defaultAnalysis
        (enrichWithRentEstimates sampleRemote
          (selectTopCandidates defaultAnalysis
            (applyHeuristicFilter defaultAnalysis [listingA, listingB])))).map
      (List.map fun m => (m.grossYield, m.grm, m.meetsOnePercentRule))) =
      some [(10.8, 9.3, false)] ∧
    ((processMarket defaultAnalysis sampleRemote [listingA, listingB] sampleMarket
        "2025-01-01T00:00:00.000Z").map fun o =>
      o.deals.map fun d => (d.rank, d.grossYield)) = some [(1, 10.8)] := by
  have hA : (if !numTruthy listingA.price || !numTruthy listingA.squareFootage then false
      else
        decide (calculateGrossYield
          (listingA.squareFootage.getD 0 * defaultAnalysis.heuristicRentPerSqft * 12)
          (listingA.price.getD 0) ≥ defaultAnalysis.minYieldThreshold)) = true := by
    show (if !numTruthy (some (200000 : ℚ)) || !numTruthy (some (1600 : ℚ)) then false
      else
        decide (calculateGrossYield ((1600 : ℚ) * 1.00 * 12) (200000 : ℚ) ≥ (6.0 : ℚ))) = true
    have h1 : numTruthy (some (200000 : ℚ)) = true := by
      rw [numTruthy]
      exact decide_eq_true (by norm_num)
    have h2 : numTruthy (some (1600 : ℚ)) = true := by
      rw [numTruthy]
      exact decide_eq_true (by norm_num)
    rw [h1, h2]
    simp only [Bool.not_true, Bool.or_self, Bool.false_eq_true, if_false]
    exact decide_eq_true
      (by rw [calculateGrossYield, if_neg (by norm_num : ¬(200000 : ℚ) = 0)]; norm_num)
  have hB : (if !numTruthy listingB.price || !numTruthy listingB.squareFootage then false
      else
        decide (calculateGrossYield
          (listingB.squareFootage.getD 0 * defaultAnalysis.heuristicRentPerSqft * 12)
          (listingB.price.getD 0) ≥ defaultAnalysis.minYieldThreshold)) = false := by
    show (if !numTruthy (some (300000 : ℚ)) || !numTruthy (some (1200 : ℚ)) then false
      else
        decide (calculateGrossYield ((1200 : ℚ) * 1.00 * 12) (300000 : ℚ) ≥ (6.0 : ℚ))) = false
    have h1 : numTruthy (some (300000 : ℚ)) = true := by
      rw [numTruthy]
      exact decide_eq_true (by norm_num)
    have h2 : numTruthy (some (1200 : ℚ)) = true := by
      rw [numTruthy]
      exact decide_eq_true (by norm_num)
    rw [h1, h2]
    simp only [Bool.not_true, Bool.or_self, Bool.false_eq_true, if_false]
    exact decide_eq_false
      (by rw [calculateGrossYield, if_neg (by norm_num : ¬(300000 : ℚ) = 0)]; norm_num)
  have hfilter : applyHeuristicFilter defaultAnalysis [listingA, listingB] = [listingA] := by
    rw [applyHeuristicFilter]
    simp only [List.filter_cons, List.filter_nil, hA, hB, Bool.false_eq_true, if_false, if_true]
  have hyA : calculateGrossYield
      (listingA.squareFootage.getD 0 * defaultAnalysis.heuristicRentPerSqft * 12)
      (listingA.price.getD 0) = 9.6 := by
    show calculateGrossYield ((1600 : ℚ) * 1.00 * 12) (200000 : ℚ) = 9.6
    rw [calculateGrossYield, if_neg (by norm_num : ¬(200000 : ℚ) = 0)]
    norm_num
  have hcandEq :
      ({ toListing := listingA
         heuristicYield := calculateGrossYield
           (listingA.squareFootage.getD 0 * defaultAnalysis.heuristicRentPerSqft * 12)
           (listingA.price.getD 0) } : CandidateListing) = cand0 := by
    rw [hyA]
    rfl
  have hsort1 : ([cand0].mergeSort (descBy CandidateListing.heuristicYield)) = [cand0] := by
    simp [List.mergeSort]
  have hselect : selectTopCandidates defaultAnalysis [listingA] = [cand0] := by
    rw [selectTopCandidates]
    simp only [List.map_cons, List.map_nil]
    rw [hcandEq, hsort1]
    rfl
  have hlook : getRentEstimate sampleRemote (buildAddress cand0.toListing)
      cand0.bedrooms cand0.bathrooms cand0.squareFootage =
      some { rent := some 1800, rentRangeLow := some 1700, rentRangeHigh := some 1900 } := by
    simp [getRentEstimate, sampleRemote, cand0]
  have h1800 : numTruthy (some (1800 : ℚ)) = true := by
    rw [numTruthy]
    exact decide_eq_true (by norm_num)
  have henrich : enrichWithRentEstimates sampleRemote [cand0] = [enrichedSample] := by
    rw [enrichWithRentEstimates, hlook]
    dsimp only
    rw [h1800]
    simp only [if_true]
    rw [enrichWithRentEstimates]
    rfl
  have hm : investmentMetricsFor defaultAnalysis enrichedSample = some metricsSample := by
    rw [investmentMetricsFor,
      if_neg (show ¬(enrichedSample.rentEstimate * 12 = 0) from by
        show ¬((1800 : ℚ) * 12 = 0); norm_num)]
    have hgy : round1 (calculateGrossYield (enrichedSample.rentEstimate * 12)
        (enrichedSample.price.getD 0)) = 10.8 := by
      show round1 (calculateGrossYield ((1800 : ℚ) * 12) (200000 : ℚ)) = 10.8
      rw [calculateGrossYield, if_neg (by norm_num : ¬(200000 : ℚ) = 0), round1, jsRound]
      norm_num
    have hcf : ((jsRound (calculateMonthlyCashFlow defaultAnalysis enrichedSample.rentEstimate
        (enrichedSample.price.getD 0)) : ℤ) : ℚ) = 1076 := by
      show ((jsRound (calculateMonthlyCashFlow defaultAnalysis (1800 : ℚ) (200000 : ℚ)) : ℤ) : ℚ) = 1076
      rw [calculateMonthlyCashFlow, jsRound]
      norm_num [defaultAnalysis]
    have hgrm : round1 (enrichedSample.price.getD 0 / (enrichedSample.rentEstimate * 12)) = 9.3 := by
      show round1 ((200000 : ℚ) / (1800 * 12)) = 9.3
      rw [round1, jsRound]
      norm_num
    have hopr : decide (enrichedSample.rentEstimate ≥ enrichedSample.price.getD 0 * 0.01) = false := by
      show decide ((1800 : ℚ) ≥ (200000 : ℚ) * 0.01) = false
      exact decide_eq_false (by norm_num)
    have har : enrichedSample.rentEstimate * 12 = 21600 := by
      show (1800 : ℚ) * 12 = 21600
      norm_num
    rw [hgy, hcf, hgrm, hopr, har]
    rfl
  have hmetrics : calculateInvestmentMetrics defaultAnalysis [enrichedSample] =
      some [metricsSample] := by
    simp only [calculateInvestmentMetrics, hm]
  have hsortm : ([metricsSample].mergeSort (descBy MetricsListing.grossYield)) =
      [metricsSample] := by
    simp [List.mergeSort]
  have hrank : rankAndSelectTopDeals defaultAnalysis [metricsSample] = [metricsSample] := by
    rw [rankAndSelectTopDeals, hsortm]
    rfl
  have hdeals : (createMarketOutput [metricsSample] sampleMarket
      "2025-01-01T00:00:00.000Z").deals = [formatDealForOutput metricsSample 1] := by
    simp [createMarketOutput]
  refine ⟨hfilter, ?_, ?_, ?_, ?_⟩
  · rw [calculateGrossYield, if_neg (by norm_num : ¬(200000 : ℚ) = 0)]
    norm_num [defaultAnalysis]
  · rw [calculateGrossYield, if_neg (by norm_num : ¬(300000 : ℚ) = 0)]
    norm_num [defaultAnalysis]
  · rw [hfilter, hselect, henrich, hmetrics]
    rfl
  · rw [processMarket, if_neg (by simp : ¬([listingA, listingB].length = 0)), hfilter,
      if_neg (by simp : ¬([listingA].length = 0)), hselect]
    dsimp only
    rw [henrich, if_neg (by simp : ¬([enrichedSample].length = 0)), hmetrics]
    dsimp only
    rw [hrank, Option.map_some', hdeals]
    rfl

end TempleDeals
